import Mathlib

/-!
Verification of the requirements-tool backend (src/backend/llm_client.py,
src/backend/main.py, src/backend/jira_client.py) against its natural-language
specification.  Python strings are embedded as `List Char` / `String`; the
regular expressions of `extract_requirement_lines` and `srs_to_user_stories`
are translated into explicit recursive functions; the external collaborators
(the model backend call `_ask`, the HTTP call `requests.post`, and the Unicode
character database behind `unicodedata.normalize`) are taken as parameters.
-/

namespace ReqTool

/-- Whitespace as used by Python's `str.strip`, `str.split` and the regex
class `\s`, restricted to the ASCII range (the Unicode `Zs` code points are
not exercised by anything in this development). -/
def isPySpace (c : Char) : Bool :=
  c = ' ' || c = '\t' || c = '\n' || c = '\r' || c = '\x0b' || c = '\x0c'

/-- Python `str.lower`, restricted to the ASCII case mapping. -/
def pyLowerChar (c : Char) : Char :=
  if 'A' ≤ c && c ≤ 'Z' then Char.ofNat (c.toNat + 32) else c

def pyLowerL (l : List Char) : List Char := l.map pyLowerChar

def pyLowerS (s : String) : String := String.mk (pyLowerL s.data)

def trimLeft (l : List Char) : List Char := l.dropWhile isPySpace

def trimRight (l : List Char) : List Char := (l.reverse.dropWhile isPySpace).reverse

/-- Python `str.strip()`. -/
def pyStrip (l : List Char) : List Char := trimRight (trimLeft l)

/-- Python `str.startswith` on character lists. -/
def prefixOfL : List Char → List Char → Bool
  | [], _ => true
  | _ :: _, [] => false
  | a :: as, b :: bs => (a = b) && prefixOfL as bs

/-- Python's substring test `needle in hay`. -/
def inStr (needle : List Char) : List Char → Bool
  | [] => needle.isEmpty
  | c :: t => prefixOfL needle (c :: t) || inStr needle t

/-- Membership of a string in a Python `set` of strings (`key in seen`). -/
def memL (x : List Char) : List (List Char) → Bool
  | [] => false
  | y :: ys => if x = y then true else memL x ys

def wordsAux : List Char → List Char → List (List Char)
  | [], cur => if cur.isEmpty then [] else [cur.reverse]
  | c :: r, cur =>
    if isPySpace c then
      if cur.isEmpty then wordsAux r [] else cur.reverse :: wordsAux r []
    else wordsAux r (c :: cur)

/-- Python `str.split()` with no argument: split on whitespace runs,
discarding empty pieces. -/
def pyWords (l : List Char) : List (List Char) := wordsAux l []

def joinSpace : List (List Char) → List Char
  | [] => []
  | [w] => w
  | w :: ws => w ++ ' ' :: joinSpace ws

/-- Python `" ".join(text.split())`: collapse internal whitespace runs to
single spaces and trim the ends. -/
def collapse (l : List Char) : List Char := joinSpace (pyWords l)

/-- Line-break characters recognized by Python `str.splitlines`. -/
def isLineBreak (c : Char) : Bool :=
  c = '\n' || c = '\r' || c = '\x0b' || c = '\x0c' || c = '\x1c' || c = '\x1d' ||
  c = '\x1e' || c = '\x85' || c = '\u2028' || c = '\u2029'

def splitlinesAux : List Char → List Char → List (List Char)
  | [], acc => if acc.isEmpty then [] else [acc.reverse]
  | '\r' :: '\n' :: rest, acc => acc.reverse :: splitlinesAux rest []
  | c :: rest, acc =>
    if isLineBreak c then acc.reverse :: splitlinesAux rest []
    else splitlinesAux rest (c :: acc)

/-- Python `str.splitlines()`. -/
def pySplitlines (l : List Char) : List (List Char) := splitlinesAux l []

/-- Python `s.replace("**", "")` (left-to-right, non-overlapping), the
bold-markup removal in `extract_requirement_lines`. -/
def removeBold : List Char → List Char
  | '*' :: '*' :: r => removeBold r
  | c :: r => c :: removeBold r
  | [] => []

/-- Models `re.match` of `section_re = ^\s*(\d+)\.\s*(.+?)\s*$`
(src/backend/llm_client.py line 165), returning group 2.  The caller passes a
line already stripped by `raw.strip()`, on which the lazy group `(.+?)`
followed by `\s*$` captures exactly the text after the period with leading
and trailing whitespace removed, and the match fails when that text is empty. -/
def sectionMatch (l : List Char) : Option (List Char) :=
  let l1 := l.dropWhile isPySpace
  let ds := l1.takeWhile Char.isDigit
  if ds.isEmpty then none
  else
    match l1.dropWhile Char.isDigit with
    | '.' :: r2 =>
      let g := trimRight (r2.dropWhile isPySpace)
      if g.isEmpty then none else some g
    | _ => none

/-- Models `re.match` of `bullet_re = ^\s*-\s+(.*\S)\s*$`
(src/backend/llm_client.py line 166), returning group 1; the caller passes a
stripped line. -/
def bulletMatch (l : List Char) : Option (List Char) :=
  match l.dropWhile isPySpace with
  | '-' :: c :: r =>
    if isPySpace c then
      let g := trimRight ((c :: r).dropWhile isPySpace)
      if g.isEmpty then none else some g
    else none
  | _ => none

/-- The three bracket-tag words of `strip_tag = \s*\[(?:Bug|Feature|Other)\]\s*$`
(src/backend/llm_client.py line 167), lower-cased since the pattern is
compiled with `re.I`. -/
def tagWords : List (List Char) := ["bug".data, "feature".data, "other".data]

/-- Decomposes `y` as `pre ++ "[" ++ tag ++ "]"` where `tag` is the bracket
content after the last `[` and, lower-cased, is one of `tagWords`; returns
`pre`.  This is the shape at which `strip_tag` matches at the end of a string
with no trailing whitespace. -/
def splitTag (y : List Char) : Option (List Char) :=
  match y.reverse with
  | [] => none
  | c :: r =>
    if c = ']' then
      let tRev := r.takeWhile (fun d => d ≠ '[')
      match r.dropWhile (fun d => d ≠ '[') with
      | [] => none
      | _ :: preRev =>
        if memL (pyLowerL tRev.reverse) tagWords then some preRev.reverse else none
    else none

/-- Models `strip_tag.sub("", x)`: if `x` ends (up to trailing whitespace)
with a bracketed `Bug`/`Feature`/`Other` tag, remove the tag together with the
whitespace around it; otherwise return `x` unchanged. -/
def stripTag (x : List Char) : List Char :=
  match splitTag (trimRight x) with
  | some pre => trimRight pre
  | none => x

/-- Greedy consumption inside the repetition `(?:\.\d+)+` of the fallback
pattern: the position is inside the digit run of a group; consume the
remaining digits and any further period-plus-digits groups, returning the
rest of the input. -/
def dottedTail : List Char → List Char
  | [] => []
  | '.' :: c :: r => if c.isDigit then dottedTail (c :: r) else '.' :: c :: r
  | c :: r => if c.isDigit then dottedTail r else c :: r

/-- Consumes the greedy repetition `(?:\.\d+)+` of the fallback pattern:
one or more groups of a period followed by one or more digits; returns the
rest, or `none` when no group is present. -/
def dottedGroups : List Char → Option (List Char)
  | '.' :: c :: r => if c.isDigit then some (dottedTail (c :: r)) else none
  | _ => none

/-- Models `re.match` of the fallback pattern
`^\s*\d+(?:\.\d+)+\.?\s+(.*\S)$` (src/backend/llm_client.py line 194),
returning group 1; the caller passes a stripped line. -/
def numberedMatch (l : List Char) : Option (List Char) :=
  let l1 := l.dropWhile isPySpace
  if (l1.takeWhile Char.isDigit).isEmpty then none
  else
    match dottedGroups (l1.dropWhile Char.isDigit) with
    | none => none
    | some r =>
      let r2 := match r with | '.' :: t => t | _ => r
      if (r2.takeWhile isPySpace).isEmpty then none
      else
        let rest := r2.dropWhile isPySpace
        match rest.reverse with
        | [] => none
        | c :: _ => if isPySpace c then none else some rest

/-- The lower-cased label substring tested by
`"functional requirements" in current_section`. -/
def frLabel : List Char := "functional requirements".data

/-- The primary heading-scoped scan of `extract_requirement_lines`
(src/backend/llm_client.py lines 169-187): walk the lines, keep a current
section set by heading matches, and collect cleaned bullet texts while the
current section label contains "functional requirements". -/
def primaryScan : List (List Char) → Option (List Char) → List (List Char)
  | [], _ => []
  | raw :: rest, cur =>
    let line := pyStrip raw
    if line.isEmpty then primaryScan rest cur
    else
      match sectionMatch line with
      | some g => primaryScan rest (some (pyLowerL (pyStrip g)))
      | none =>
        match cur with
        | some sec =>
          if inStr frLabel sec then
            match bulletMatch line with
            | some b =>
              let item := collapse (pyStrip (stripTag b))
              if item.isEmpty then primaryScan rest cur
              else item :: primaryScan rest cur
            | none => primaryScan rest cur
          else primaryScan rest cur
        | none => primaryScan rest cur

/-- The fallback scan of `extract_requirement_lines`
(src/backend/llm_client.py lines 189-198): accept dotted multi-level numbered
lines anywhere, whitespace-collapsed. -/
def fallbackScan (lines : List (List Char)) : List (List Char) :=
  lines.filterMap fun raw =>
    match numberedMatch (pyStrip raw) with
    | some g => some (collapse g)
    | none => none

/-- The case-insensitive de-duplication loop of `extract_requirement_lines`
(src/backend/llm_client.py lines 200-207). -/
def dedupAux : List (List Char) → List (List Char) → List (List Char)
  | [], _ => []
  | r :: rest, seen =>
    let key := pyLowerL r
    if memL key seen then dedupAux rest seen
    else r :: dedupAux rest (key :: seen)

/-- `unicodedata.normalize "NFKC"` is the identity on ASCII text; every
concrete document in this development is ASCII. -/
def nfkcAscii : List Char → List Char := fun l => l

/-- The normalized line list built by `extract_requirement_lines`
(src/backend/llm_client.py lines 155-159): remove NUL characters, apply the
NFKC normalization (passed in as `nfkc`, since the Unicode character database
is external to this embedding), remove `**` bold markup, split into lines. -/
def normalizedLines (nfkc : List Char → List Char) (srs_text : String) : List (List Char) :=
  pySplitlines (removeBold (nfkc (srs_text.data.filter fun c => c ≠ '\x00')))

/-- Embeds `extract_requirement_lines` (src/backend/llm_client.py
lines 154-207). -/
def extract_requirement_lines (nfkc : List Char → List Char) (srs_text : String) : List String :=
  let lines := normalizedLines nfkc srs_text
  let reqs := primaryScan lines none
  let reqs :=
    if reqs.isEmpty then
      let numbered := fallbackScan lines
      if numbered.isEmpty then reqs else numbered
    else reqs
  (dedupAux reqs []).map fun l => String.mk l

/-- The leading list-marker class `[\d\.\-\)\(\s•*]` stripped from each reply
line by `re.sub` in `srs_to_user_stories` (src/backend/llm_client.py
line 237); the anchored `^...+` sub removes exactly the maximal leading run. -/
def storyMarker (c : Char) : Bool :=
  c.isDigit || c = '.' || c = '-' || c = ')' || c = '(' || c = '•' || c = '*' || isPySpace c

/-- The per-line body of the reply-parsing loop of `srs_to_user_stories`
(src/backend/llm_client.py lines 236-239): strip leading list markers, keep
the line only if (case-insensitively) it starts with "as a " and contains
" i want ", and then collapse whitespace and truncate to 280 characters. -/
def storyOfLine (ln : List Char) : Option (List Char) :=
  let t := ln.dropWhile storyMarker
  if prefixOfL "as a ".data (pyLowerL t) && inStr " i want ".data (pyLowerL t)
  then some ((collapse t).take 280)
  else none

/-- The non-blank stripped lines of the model reply
(`[ln.strip() for ln in raw.splitlines() if ln.strip()]`,
src/backend/llm_client.py line 234). -/
def nonblankLines (raw : String) : List (List Char) :=
  (pySplitlines raw.data).filterMap fun ln =>
    let t := pyStrip ln
    if t.isEmpty then none else some t

/-- The accepted story lines of a model reply, in order of appearance
(src/backend/llm_client.py lines 234-239). -/
def parsedStories (raw : String) : List (List Char) :=
  (nonblankLines raw).filterMap storyOfLine

/-- The de-duplicate-and-cap loop of `srs_to_user_stories`
(src/backend/llm_client.py lines 241-249): case-insensitive de-duplication
keeping first occurrences, with a `break` as soon as the output has reached
`max_stories` entries. -/
def dedupCapAux (maxStories : Nat) : List (List Char) → List (List Char) → List (List Char) → List (List Char)
  | [], _, out => out.reverse
  | s :: rest, seen, out =>
    let k := pyLowerL s
    let seen2 := if memL k seen then seen else k :: seen
    let out2 := if memL k seen then out else s :: out
    if maxStories ≤ out2.length then out2.reverse
    else dedupCapAux maxStories rest seen2 out2

/-- Parsing of the model reply in `srs_to_user_stories`
(src/backend/llm_client.py lines 233-250). -/
def parse_user_stories (raw : String) (maxStories : Nat) : List String :=
  (dedupCapAux maxStories (parsedStories raw) [] []).map fun l => String.mk l

/-- The instruction payload built by `srs_to_user_stories`
(src/backend/llm_client.py lines 219-229). -/
def storyPrompt (reqLines : List String) : String :=
  "You are a requirements analyst.\n" ++
  "Convert the following software requirements into concise user stories.\n" ++
  "Each story must follow exactly: As a <type of user>, I want <goal> so that <reason>.\n" ++
  "Do not invent features; do not merge or split items; one story per requirement.\n" ++
  "Aim for 12–20 words per story.\n\n" ++
  "Requirements:\n" ++
  String.intercalate "\n" (reqLines.map fun req => "- " ++ req) ++
  "\n\nOutput as a numbered list:\n" ++
  "1. As a ...\n2. As a ...\n"

/-- Embeds `srs_to_user_stories` (src/backend/llm_client.py lines 209-250).
The single blocking model call `_ask` is the parameter `ask` (an external
collaborator returning the reply text); `nfkc` is as in
`extract_requirement_lines`. -/
def srs_to_user_stories (nfkc : List Char → List Char) (ask : String → String)
    (srs_text : String) (maxStories : Nat) : List String :=
  let req_lines := extract_requirement_lines nfkc srs_text
  if req_lines.isEmpty then []
  else parse_user_stories (ask (storyPrompt req_lines)) maxStories

/-- The Jira environment variables read at module load
(src/backend/jira_client.py lines 5-8); `none` models an unset variable. -/
structure JiraEnv where
  jiraUrl : Option String
  jiraEmail : Option String
  jiraApiToken : Option String
  jiraProjectKey : Option String
deriving DecidableEq

/-- Python truthiness of an optional string, as used by
`all([...])` in `_check_env` and by `x or default`. -/
def pyTruthy : Option String → Bool
  | none => false
  | some s => !s.isEmpty

/-- Python `value or default` on an optional string. -/
def pyOr (v : Option String) (d : String) : String :=
  match v with
  | none => d
  | some s => if s.isEmpty then d else s

/-- The fields of the issue-creation request sent by `create_issue`
(src/backend/jira_client.py lines 38-46); the rich-text wrapping `_adf` is
determined by `description` and carried as-is. -/
structure JiraPayload where
  projectKey : String
  summary : String
  description : String
  labels : List String
deriving DecidableEq

/-- The outcome of `requests.post` in `create_issue`: HTTP status code and
the `key` field of the JSON body (`r.json().get("key")`), plus `r.text`. -/
structure JiraHttpResp where
  status : Nat
  key : Option String
  text : String
deriving DecidableEq

/-- Embeds `_clean_text` (src/backend/jira_client.py lines 14-17). -/
def cleanText (t : String) : String :=
  if t.isEmpty then "" else String.mk (pyStrip (t.data.filter fun c => c ≠ '\x00'))

/-- The dictionary returned by `create_issue`: either
`{"key": ..., "summary": ...}` (status 200/201) or `{"error": ...}`. -/
inductive CreateResult where
  | keyed (key : Option String) (summary : String)
  | errored (message : String)
deriving DecidableEq

/-- Embeds `jira_client.create_issue` (src/backend/jira_client.py
lines 31-56).  `post` is the external HTTP collaborator; `Except.error`
models a raised Python exception (the `RuntimeError` of `_check_env`, or a
transport error raised inside `requests.post`). -/
def create_issue (env : JiraEnv) (post : JiraPayload → Except String JiraHttpResp)
    (summary description : String) (labels : List String) : Except String CreateResult :=
  if !(pyTruthy env.jiraUrl && pyTruthy env.jiraEmail &&
       pyTruthy env.jiraApiToken && pyTruthy env.jiraProjectKey) then
    Except.error "Missing one or more Jira environment variables."
  else
    let summary2 := (cleanText summary).take 255
    let description2 := cleanText description
    match post (JiraPayload.mk (env.jiraProjectKey.getD "") summary2 description2 labels) with
    | Except.error e => Except.error e
    | Except.ok r =>
      if r.status = 200 || r.status = 201 then Except.ok (CreateResult.keyed r.key summary2)
      else Except.ok (CreateResult.errored ("Jira " ++ toString r.status ++ ": " ++ r.text))

/-- The parameter names of `jira_client.create_issue`
(src/backend/jira_client.py line 31). -/
def create_issue_param_names : List String := ["summary", "description", "labels"]

/-- Models Python keyword-argument binding for a call to `create_issue`:
if some keyword is not among the function's parameter names, the call raises
`TypeError` before the function body runs; otherwise the body runs. -/
def callCreateIssueKw (kwargs : List String) (body : Except String CreateResult) :
    Except String CreateResult :=
  match kwargs.filter (fun k => !(create_issue_param_names.contains k)) with
  | [] => body
  | k :: _ =>
    Except.error ("TypeError: create_issue() got an unexpected keyword argument " ++ k)

/-- The pydantic `JiraItem` model of the `/jira/create` endpoint
(src/backend/main.py lines 90-93). -/
structure JiraItem where
  review : String
  classification : String
  reasoning : Option String
deriving DecidableEq

/-- An entry of the `created` list of `/jira/create`
(`{"key": key, "summary": it.review}`, src/backend/main.py line 105);
`key` is whatever the `create_issue` call returned. -/
structure JcCreated where
  key : CreateResult
  summary : String
deriving DecidableEq

/-- An entry of the `failed` list of `/jira/create`
(`{"summary": it.review, "error": str(e)}`, src/backend/main.py line 107). -/
structure JcFailed where
  summary : String
  error : String
deriving DecidableEq

/-- The response of `/jira/create`. -/
structure JcResponse where
  created : List JcCreated
  failed : List JcFailed
deriving DecidableEq

/-- The issue-type selection of `/jira/create` (src/backend/main.py
line 102). -/
def issueTypeFor (classification : String) : String :=
  if classification = "Bug" then "Bug"
  else if classification = "Feature" then "Story" else "Task"

/-- The per-item loop of `/jira/create` (src/backend/main.py lines 100-107).
The call `create_issue(summary=..., description=..., issuetype=itype)` uses
the keyword `issuetype`, which is not a parameter of
`jira_client.create_issue`, so the guarded body is the `create_issue` body on
the keywords that do bind; the `try/except` catches any raised exception into
the `failed` list. -/
def jiraCreateLoop (env : JiraEnv) (post : JiraPayload → Except String JiraHttpResp) :
    List JiraItem → List JcCreated → List JcFailed → JcResponse
  | [], created, failed => JcResponse.mk created.reverse failed.reverse
  | it :: rest, created, failed =>
    match callCreateIssueKw ["summary", "description", "issuetype"]
        (create_issue env post it.review (pyOr it.reasoning "") []) with
    | Except.ok res => jiraCreateLoop env post rest (JcCreated.mk res it.review :: created) failed
    | Except.error e => jiraCreateLoop env post rest created (JcFailed.mk it.review e :: failed)

/-- Embeds the `/jira/create` handler `jira_create`
(src/backend/main.py lines 98-108). -/
def jira_create (env : JiraEnv) (post : JiraPayload → Except String JiraHttpResp)
    (items : List JiraItem) : JcResponse :=
  jiraCreateLoop env post items [] []

/-- One element of the `stories` list sent to `/jira/send-selected`
(src/backend/main.py lines 139, 150-151); fields are dictionary lookups, so
both may be missing. -/
structure StoryItem where
  user_story : Option String
  classification : Option String
deriving DecidableEq

/-- An entry of the `created` list of `/jira/send-selected` and
`/jira/send-selected-classifications`: the `{"key", "summary"}` dictionary
returned by `create_issue` on HTTP success. -/
structure SsCreated where
  key : Option String
  summary : String
deriving DecidableEq

/-- An entry of the `failed` list of `/jira/send-selected`
(`{"title": ..., "error": ...}`, src/backend/main.py lines 153, 159). -/
structure SsFailed where
  title : String
  error : String
deriving DecidableEq

/-- The response of `/jira/send-selected`: either the early
`{"error": ...}` object or the `{"created", "failed"}` object. -/
inductive SsResponse where
  | errorResp (message : String)
  | batch (created : List SsCreated) (failed : List SsFailed)
deriving DecidableEq

/-- The per-item loop of `/jira/send-selected` (src/backend/main.py
lines 149-159).  The call on line 155 is
`create_issue(summary=story, description=story, classification=classification)`;
the keyword `classification` is not a parameter of
`jira_client.create_issue`, and the resulting `TypeError` is not caught, so
it propagates out of the handler (`Except.error`). -/
def sendSelectedLoop (env : JiraEnv) (post : JiraPayload → Except String JiraHttpResp) :
    List StoryItem → List SsCreated → List SsFailed → Except String SsResponse
  | [], created, failed => Except.ok (SsResponse.batch created.reverse failed.reverse)
  | it :: rest, created, failed =>
    let story := String.mk (pyStrip (pyOr it.user_story "").data)
    let _classification := pyOr it.classification "Feature"
    if story.isEmpty then
      sendSelectedLoop env post rest created (SsFailed.mk "" "Empty story" :: failed)
    else
      match callCreateIssueKw ["summary", "description", "classification"]
          (create_issue env post story story []) with
      | Except.error e => Except.error e
      | Except.ok (CreateResult.keyed k s) =>
        sendSelectedLoop env post rest (SsCreated.mk k s :: created) failed
      | Except.ok (CreateResult.errored m) =>
        sendSelectedLoop env post rest created (SsFailed.mk story m :: failed)

/-- Embeds the `/jira/send-selected` handler `jira_send_selected`
(src/backend/main.py lines 136-160); `payloadStories` is
`payload.get("stories", [])` with `none` for a missing key. -/
def jira_send_selected (env : JiraEnv) (post : JiraPayload → Except String JiraHttpResp)
    (payloadStories : Option (List StoryItem)) : Except String SsResponse :=
  let items := payloadStories.getD []
  if items.isEmpty then Except.ok (SsResponse.errorResp "No stories provided")
  else if 10 < items.length then
    Except.ok (SsResponse.errorResp "Cannot send more than 10 stories at once")
  else sendSelectedLoop env post items [] []

/-- One element of the `items` list sent to
`/jira/send-selected-classifications` (src/backend/main.py lines 167-169,
180-185); all fields are dictionary lookups. -/
structure ClsItem where
  review : Option String
  classification : Option String
  fr_nfr : Option String
  subtype : Option String
  reasoning : Option String
deriving DecidableEq

/-- An entry of the `failed` list of `/jira/send-selected-classifications`. -/
structure ScFailed where
  title : String
  error : String
deriving DecidableEq

/-- The response of `/jira/send-selected-classifications`. -/
inductive ScResponse where
  | errorResp (message : String)
  | batch (created : List SsCreated) (failed : List ScFailed)
deriving DecidableEq

/-- Embeds `labels_for_item` (src/backend/main.py lines 17-30). -/
def labels_for_item (kind : String) (subtype : Option String) : List String :=
  let k := pyLowerS kind
  if k = "bug" then ["bug"]
  else if k = "feature" || k = "fr" || k = "functional requirement" then ["feature"]
  else if k = "nfr" || k = "non-functional requirement" then
    match subtype with
    | none => ["nfr"]
    | some st =>
      if st.isEmpty then ["nfr"]
      else ["nfr", "nfr-" ++ String.mk ((pyLowerL st.data).map fun c => if c = ' ' then '-' else c)]
  else ["other"]

/-- The per-item loop of `/jira/send-selected-classifications`
(src/backend/main.py lines 179-195).  This call site passes the keywords
`summary`, `description` and `labels`, which all bind, so the `create_issue`
body runs; an exception raised inside it (missing environment variables or a
transport error) is not caught and propagates. -/
def sendClsLoop (env : JiraEnv) (post : JiraPayload → Except String JiraHttpResp) :
    List ClsItem → List SsCreated → List ScFailed → Except String ScResponse
  | [], created, failed => Except.ok (ScResponse.batch created.reverse failed.reverse)
  | it :: rest, created, failed =>
    let summary := String.mk (pyStrip (pyOr it.review "").data)
    if summary.isEmpty then
      sendClsLoop env post rest created (ScFailed.mk "" "Empty review" :: failed)
    else
      let kind := pyOr it.classification (pyOr it.fr_nfr "Feature")
      let labels := labels_for_item kind it.subtype
      let pfx := if labels.contains "bug" then "[BUG]"
                 else if labels.contains "nfr" then "[NFR]" else "[FEATURE]"
      match callCreateIssueKw ["summary", "description", "labels"]
          (create_issue env post (pfx ++ " " ++ summary) (pyOr it.reasoning summary) labels) with
      | Except.error e => Except.error e
      | Except.ok (CreateResult.keyed k s) =>
        sendClsLoop env post rest (SsCreated.mk k s :: created) failed
      | Except.ok (CreateResult.errored m) =>
        sendClsLoop env post rest created (ScFailed.mk summary m :: failed)

/-- Embeds the `/jira/send-selected-classifications` handler
(src/backend/main.py lines 164-196); `payloadItems` is
`payload.get("items", [])` with `none` for a missing key. -/
def jira_send_selected_classifications (env : JiraEnv)
    (post : JiraPayload → Except String JiraHttpResp)
    (payloadItems : Option (List ClsItem)) : Except String ScResponse :=
  let items := payloadItems.getD []
  if items.isEmpty then Except.ok (ScResponse.errorResp "No items provided")
  else if 10 < items.length then
    Except.ok (ScResponse.errorResp "Cannot send more than 10 items at once")
  else sendClsLoop env post items [] []

/-- A sample model reply with three distinct conforming story lines, used to
instantiate the cap theorem. -/
def c6Reply : String :=
  "As a user, I want a so that b.\nAs a dev, I want c so that d.\nAs a boss, I want e so that f."

/-- An environment with no Jira variables set. -/
def envNone : JiraEnv := JiraEnv.mk none none none none

/-- An HTTP collaborator that always raises a transport error. -/
def postFail : JiraPayload → Except String JiraHttpResp := fun _ => Except.error "connection error"

/-- A well-formed story item for the batch endpoints. -/
def sampleStory : StoryItem := StoryItem.mk (some "As a user, I want x so that y.") none

/-- A well-formed classification item for the batch endpoints. -/
def sampleCls : ClsItem := ClsItem.mk (some "review text") none none none none

/-! ## Helper lemmas -/

theorem memL_cons_false (x y : List Char) (ys : List (List Char)) :
    memL x (y :: ys) = false ↔ x ≠ y ∧ memL x ys = false := by
  simp only [memL]
  split
  · next he => simp [he]
  · next hne => simp [hne]

theorem dropWhile_head_not {p : Char → Bool} {l : List Char} {b : Char} {t : List Char}
    (h : l.dropWhile p = b :: t) : p b = false := by
  induction l with
  | nil => simp [List.dropWhile] at h
  | cons a l ih =>
    rw [List.dropWhile_cons] at h
    split at h
    · exact ih h
    · next hpa => cases h; simpa using hpa

theorem sectionMatch_shape (l g : List Char) (h : sectionMatch l = some g) :
    g ≠ [] ∧ ∃ ds rest, l.dropWhile isPySpace = ds ++ '.' :: rest ∧
      ds ≠ [] ∧ ∀ c ∈ ds, c.isDigit := by
  simp only [sectionMatch] at h
  split at h
  · exact absurd h (by simp)
  · next hds =>
    split at h
    · next r2 hr2 =>
      split at h
      · exact absurd h (by simp)
      · next hg =>
        cases h
        refine ⟨by simpa using hg, (l.dropWhile isPySpace).takeWhile Char.isDigit, r2, ?_, ?_, ?_⟩
        · rw [← hr2]; exact (List.takeWhile_append_dropWhile ..).symm
        · simpa using hds
        · intro c hc; exact List.mem_takeWhile_imp hc
    · exact absurd h (by simp)

theorem splitTag_shape (y pre : List Char) (h : splitTag y = some pre) :
    ∃ tag, y = pre ++ '[' :: (tag ++ [']']) ∧ memL (pyLowerL tag) tagWords = true := by
  simp only [splitTag] at h
  split at h
  · exact absurd h (by simp)
  · next c r hrev =>
    split at h
    · next hc =>
      subst hc
      split at h
      · exact absurd h (by simp)
      · next b preRev hdrop =>
        split at h
        · next hmem =>
          cases h
          have hb : b = '[' := by
            have := dropWhile_head_not hdrop
            simpa using this
          subst hb
          refine ⟨(r.takeWhile (fun d => d ≠ '[')).reverse, ?_, hmem⟩
          have hy : y = r.reverse ++ [']'] := by
            have := congrArg List.reverse hrev
            simpa using this
          have hr : r = r.takeWhile (fun d => d ≠ '[') ++ '[' :: preRev := by
            conv_lhs => rw [← List.takeWhile_append_dropWhile (p := fun d => d ≠ '[') (l := r)]
            rw [hdrop]
          rw [hy]
          conv_lhs => rw [hr]
          simp [List.reverse_append, List.append_assoc]
        · exact absurd h (by simp)
    · exact absurd h (by simp)

theorem stripTag_shape (x : List Char) (h : stripTag x ≠ x) :
    ∃ pre tag, trimRight x = pre ++ '[' :: (tag ++ [']']) ∧
      memL (pyLowerL tag) tagWords = true := by
  unfold stripTag at h
  split at h
  · next pre hs => exact ⟨pre, splitTag_shape _ _ hs⟩
  · exact absurd rfl h

theorem dedupAux_sound (l : List (List Char)) :
    ∀ seen, (dedupAux l seen).Pairwise (fun a b => pyLowerL a ≠ pyLowerL b) ∧
      ∀ x ∈ dedupAux l seen, memL (pyLowerL x) seen = false := by
  induction l with
  | nil => intro seen; simp [dedupAux]
  | cons r rest ih =>
    intro seen
    by_cases hm : memL (pyLowerL r) seen = true
    · simp only [dedupAux, hm, if_true]
      exact ih seen
    · have hm' : memL (pyLowerL r) seen = false := by simpa using hm
      simp only [dedupAux, hm', Bool.false_eq_true, if_false]
      refine ⟨List.Pairwise.cons ?_ (ih _).1, ?_⟩
      · intro y hy heq
        have h2 := (ih (pyLowerL r :: seen)).2 y hy
        exact ((memL_cons_false _ _ _).mp h2).1 heq.symm
      · intro x hx
        rcases List.mem_cons.mp hx with hx | hx
        · subst hx; exact hm'
        · exact ((memL_cons_false _ _ _).mp ((ih (pyLowerL r :: seen)).2 x hx)).2

theorem dedupCapAux_cons (maxS : Nat) (s : List Char) (rest seen out : List (List Char)) :
    dedupCapAux maxS (s :: rest) seen out =
      if maxS ≤ (if memL (pyLowerL s) seen then out else s :: out).length
      then (if memL (pyLowerL s) seen then out else s :: out).reverse
      else dedupCapAux maxS rest (if memL (pyLowerL s) seen then seen else pyLowerL s :: seen)
        (if memL (pyLowerL s) seen then out else s :: out) := rfl

theorem dedupCapAux_mem (maxS : Nat) (l : List (List Char)) :
    ∀ seen out x, x ∈ dedupCapAux maxS l seen out → x ∈ l ∨ x ∈ out := by
  induction l with
  | nil => intro seen out x hx; simp only [dedupCapAux] at hx; right; exact List.mem_reverse.mp hx
  | cons s rest ih =>
    intro seen out x hx
    rw [dedupCapAux_cons] at hx
    by_cases hm : memL (pyLowerL s) seen = true <;>
      simp only [hm, Bool.false_eq_true, if_true, if_false] at hx <;>
      by_cases hbr : maxS ≤ (if memL (pyLowerL s) seen then out else s :: out).length
    all_goals simp only [hm, Bool.false_eq_true, if_true, if_false] at hbr
    · rw [if_pos hbr] at hx
      right; exact List.mem_reverse.mp hx
    · rw [if_neg hbr] at hx
      rcases ih _ _ x hx with h | h
      · left; exact List.mem_cons_of_mem _ h
      · right; exact h
    · rw [if_pos hbr] at hx
      rcases List.mem_cons.mp (List.mem_reverse.mp hx) with h | h
      · left; simp [h]
      · right; exact h
    · rw [if_neg hbr] at hx
      rcases ih _ _ x hx with h | h
      · left; exact List.mem_cons_of_mem _ h
      · rcases List.mem_cons.mp h with h2 | h2
        · left; simp [h2]
        · right; exact h2

theorem dedupCapAux_length_le (maxS : Nat) (l : List (List Char)) :
    ∀ seen out, out.length < maxS → (dedupCapAux maxS l seen out).length ≤ maxS := by
  induction l with
  | nil => intro seen out h; simp only [dedupCapAux, List.length_reverse]; omega
  | cons s rest ih =>
    intro seen out h
    rw [dedupCapAux_cons]
    have hlen : (if memL (pyLowerL s) seen then out else s :: out).length ≤ maxS := by
      split
      · omega
      · simp only [List.length_cons]; omega
    by_cases hbr : maxS ≤ (if memL (pyLowerL s) seen then out else s :: out).length
    · rw [if_pos hbr, List.length_reverse]; exact hlen
    · rw [if_neg hbr]; exact ih _ _ (Nat.lt_of_not_le hbr)

theorem dedupCapAux_distinct (maxS : Nat) (l : List (List Char)) :
    ∀ seen out, out.length < maxS →
    (∀ x ∈ l, memL (pyLowerL x) seen = false) →
    l.Pairwise (fun a b => pyLowerL a ≠ pyLowerL b) →
    dedupCapAux maxS l seen out = out.reverse ++ l.take (maxS - out.length) := by
  induction l with
  | nil => intro seen out _ _ _; simp [dedupCapAux]
  | cons s rest ih =>
    intro seen out hout hseen hdist
    have hm : memL (pyLowerL s) seen = false := hseen s (by simp)
    rw [List.pairwise_cons] at hdist
    rw [dedupCapAux_cons]
    simp only [hm, Bool.false_eq_true, if_false]
    by_cases hbr : maxS ≤ (s :: out).length
    · have hmax : maxS = out.length + 1 := by
        simp only [List.length_cons] at hbr; omega
      rw [if_pos hbr, hmax]
      simp [List.reverse_cons, List.take_succ_cons]
    · rw [if_neg hbr]
      have h2 : (s :: out).length < maxS := Nat.lt_of_not_le hbr
      rw [ih (pyLowerL s :: seen) (s :: out) h2 ?_ hdist.2]
      · simp only [List.reverse_cons, List.length_cons]
        have hm1 : maxS - out.length = (maxS - (out.length + 1)) + 1 := by
          simp only [List.length_cons] at h2; omega
        rw [hm1, List.take_succ_cons]
        simp [List.append_assoc]
      · intro x hx
        rw [memL_cons_false]
        exact ⟨fun he => hdist.1 x hx he.symm, hseen x (List.mem_cons_of_mem _ hx)⟩

theorem storyOfLine_length_le (ln s : List Char) (h : storyOfLine ln = some s) :
    s.length ≤ 280 := by
  simp only [storyOfLine] at h
  split at h
  · cases h; exact List.length_take_le ..
  · exact absurd h (by simp)

theorem parse_user_stories_length_le (raw : String) (maxS : Nat) (s : String)
    (hs : s ∈ parse_user_stories raw maxS) : s.length ≤ 280 := by
  unfold parse_user_stories at hs
  obtain ⟨l, hl, rfl⟩ := List.mem_map.mp hs
  have h1 := dedupCapAux_mem maxS _ [] [] l hl
  simp only [List.not_mem_nil, or_false] at h1
  obtain ⟨ln, _hln, hsol⟩ := List.mem_filterMap.mp h1
  exact storyOfLine_length_le ln l hsol

theorem jiraCreateLoop_all_fail (env : JiraEnv) (post : JiraPayload → Except String JiraHttpResp)
    (items : List JiraItem) :
    ∀ created failed, jiraCreateLoop env post items created failed =
      JcResponse.mk created.reverse (failed.reverse ++ items.map fun it =>
        JcFailed.mk it.review
          "TypeError: create_issue() got an unexpected keyword argument issuetype") := by
  induction items with
  | nil => intro c f; simp [jiraCreateLoop]
  | cons it rest ih =>
    intro c f
    have hkw : callCreateIssueKw ["summary", "description", "issuetype"]
        (create_issue env post it.review (pyOr it.reasoning "") []) =
        Except.error "TypeError: create_issue() got an unexpected keyword argument issuetype" := rfl
    simp only [jiraCreateLoop, hkw]
    rw [ih]
    simp [List.append_assoc]

/-! ## Claims -/

/-- C1 counterexample: the multi-level numbered line `1.1 Foo` does match the
primary heading pattern (integer `1`, period, text `1 Foo`), so it sets the
current-section pointer; consequently a bullet following it after a
Functional Requirements heading is no longer captured. -/
theorem c1_counterexample :
    sectionMatch (pyStrip "1.1 Foo".data) = some "1 Foo".data ∧
    extract_requirement_lines nfkcAscii
      "3. Functional Requirements\n- first bullet\n1.1 Foo\n- hidden bullet"
      = ["first bullet"] :=
  ⟨by decide, by decide⟩

/-- C1 (amended): the primary scan recognizes a line as a section heading
only when, after leading whitespace, it starts with a nonempty digit run
followed by a period and nonempty descriptive text; the multi-level line
`1.1 Foo` itself has this shape (integer `1`, period, text `1 Foo`), so it
does set the current-section pointer — losing subsequent bullets — while
also serving as fallback-pattern material. -/
theorem c1_heading_shape :
    (∀ l g, sectionMatch l = some g →
      g ≠ [] ∧ ∃ ds rest, l.dropWhile isPySpace = ds ++ '.' :: rest ∧
        ds ≠ [] ∧ ∀ c ∈ ds, c.isDigit) ∧
    sectionMatch (pyStrip "1.1 Foo".data) = some "1 Foo".data ∧
    extract_requirement_lines nfkcAscii
      "3. Functional Requirements\n1.1 Foo\n- hidden bullet" = ["Foo"] :=
  ⟨sectionMatch_shape, by decide, by decide⟩

/-- Witness for C1: the heading-shape direction applied to the concrete
heading line `3. Overview`. -/
theorem c1_witness :
    "Overview".data ≠ [] ∧ ∃ ds rest, ("3. Overview".data).dropWhile isPySpace =
      ds ++ '.' :: rest ∧ ds ≠ [] ∧ ∀ c ∈ ds, c.isDigit :=
  c1_heading_shape.1 "3. Overview".data "Overview".data (by decide)

/-- C2 counterexample: a trailing bracketed alphabetic tag other than
`Bug`/`Feature`/`Other` (here `[Security]`) is NOT stripped from a captured
Functional Requirements bullet. -/
theorem c2_counterexample :
    extract_requirement_lines nfkcAscii "3. Functional Requirements\n- Allow export [Security]"
      = ["Allow export [Security]"] ∧
    extract_requirement_lines nfkcAscii "3. Functional Requirements\n- Allow export [Security]"
      ≠ ["Allow export"] :=
  ⟨by decide, by decide⟩

/-- C2 (amended): the tag stripping removes a trailing bracketed tag only
when its content is, case-insensitively, one of the three fixed words `Bug`,
`Feature`, `Other`: whenever `stripTag` changes its input, the input ends
(up to trailing whitespace) in a bracketed tag from that fixed set; and a
`[BUG]` tag is stripped while whitespace runs are collapsed. -/
theorem c2_tag_strip :
    (∀ x, stripTag x ≠ x →
      ∃ pre tag, trimRight x = pre ++ '[' :: (tag ++ [']']) ∧
        memL (pyLowerL tag) tagWords = true) ∧
    extract_requirement_lines nfkcAscii "3. Functional Requirements\n-   Allow   login   [BUG]"
      = ["Allow login"] :=
  ⟨stripTag_shape, by decide⟩

/-- Witness for C2: the fixed-set direction applied to the concrete bullet
text `a [Bug]`, which the tag stripping does change. -/
theorem c2_witness :
    ∃ pre tag, trimRight "a [Bug]".data = pre ++ '[' :: (tag ++ [']']) ∧
      memL (pyLowerL tag) tagWords = true :=
  c2_tag_strip.1 "a [Bug]".data (by decide)

/-- C3: the extractor's result is the de-duplication of the primary
heading-scoped bullet scan when that scan produced at least one candidate,
and of the dotted-multi-level-numeric fallback scan exactly when the primary
scan produced zero candidates; and a document with no bullet under a
Functional Requirements heading but containing the line
`2.3. Support offline mode` yields exactly `["Support offline mode"]`. -/
theorem c3_fallback_iff :
    (∀ nfkc srs_text, extract_requirement_lines nfkc srs_text =
      (dedupAux (if primaryScan (normalizedLines nfkc srs_text) none = []
                 then fallbackScan (normalizedLines nfkc srs_text)
                 else primaryScan (normalizedLines nfkc srs_text) none) []).map
        (fun l => String.mk l)) ∧
    extract_requirement_lines nfkcAscii "Overview\n2.3. Support offline mode\nClosing remarks"
      = ["Support offline mode"] := by
  refine ⟨fun nfkc srs => ?_, by decide⟩
  simp only [extract_requirement_lines]
  by_cases hp : primaryScan (normalizedLines nfkc srs) none = []
  · rw [hp]
    by_cases hf : fallbackScan (normalizedLines nfkc srs) = []
    · rw [hf]; simp
    · simp [hf]
  · have hp2 : (primaryScan (normalizedLines nfkc srs) none).isEmpty = false := by
      simpa [List.isEmpty_iff] using hp
    simp [hp2, hp]

/-- C4: case-insensitive de-duplication keeps the first occurrence (the
bullets `- Add login` and `- add LOGIN` yield the single requirement
`Add login`), and for every document the extractor's output contains no two
entries that are equal up to case. -/
theorem c4_dedup :
    extract_requirement_lines nfkcAscii "3. Functional Requirements\n- Add login\n- add LOGIN"
      = ["Add login"] ∧
    ∀ nfkc srs_text, (extract_requirement_lines nfkc srs_text).Pairwise
      (fun a b => pyLowerS a ≠ pyLowerS b) := by
  refine ⟨by decide, fun nfkc srs => ?_⟩
  unfold extract_requirement_lines
  rw [List.pairwise_map]
  refine ((dedupAux_sound _ []).1).imp ?_
  intro a b hab he
  exact hab (congrArg String.data he)

/-- C5: a reply line is kept precisely when, after stripping the leading
list-marker run, it case-insensitively starts with `as a ` and contains
` i want `; every kept story is whitespace-collapsed and truncated to at
most 280 characters; the line
`3) As a user, I want dark mode so that my eyes hurt less at night.` is
accepted with its marker stripped, while `I want dark mode` is rejected. -/
theorem c5_story_grammar :
    (∀ ln, (storyOfLine ln).isSome =
      (prefixOfL "as a ".data (pyLowerL (ln.dropWhile storyMarker)) &&
       inStr " i want ".data (pyLowerL (ln.dropWhile storyMarker)))) ∧
    (∀ ln, storyOfLine ln = none ∨
      storyOfLine ln = some ((collapse (ln.dropWhile storyMarker)).take 280)) ∧
    (∀ raw maxStories s, s ∈ parse_user_stories raw maxStories → s.length ≤ 280) ∧
    storyOfLine "3) As a user, I want dark mode so that my eyes hurt less at night.".data
      = some "As a user, I want dark mode so that my eyes hurt less at night.".data ∧
    storyOfLine "I want dark mode".data = none := by
  refine ⟨fun ln => ?_, fun ln => ?_, parse_user_stories_length_le, by decide, by decide⟩
  · simp only [storyOfLine]
    split
    · next hc => simp [hc]
    · next hc => simp [hc]
  · simp only [storyOfLine]
    split
    · right; rfl
    · left; rfl

/-- Witness for C5: the accepted example line flows through the full reply
parser and its kept story is within the 280-character bound. -/
theorem c5_witness :
    "As a user, I want dark mode so that my eyes hurt less at night." ∈
      parse_user_stories "3) As a user, I want dark mode so that my eyes hurt less at night." 50 ∧
    ("As a user, I want dark mode so that my eyes hurt less at night." : String).length ≤ 280 :=
  ⟨by decide, c5_story_grammar.2.2.1
    "3) As a user, I want dark mode so that my eyes hurt less at night." 50
    "As a user, I want dark mode so that my eyes hurt less at night." (by decide)⟩

/-- C6: when the conforming reply lines are pairwise case-insensitively
distinct, the synthesizer's parse returns exactly the first `maxStories` of
them, in order of appearance — the accumulation stops at the cap and excess
valid lines are discarded (so 60 distinct conforming lines with cap 50 yield
exactly the first 50). -/
theorem c6_cap (raw : String) (maxStories : Nat) (h1 : 1 ≤ maxStories)
    (hdist : (parsedStories raw).Pairwise (fun a b => pyLowerL a ≠ pyLowerL b)) :
    parse_user_stories raw maxStories =
      ((parsedStories raw).take maxStories).map (fun l => String.mk l) := by
  unfold parse_user_stories
  rw [dedupCapAux_distinct maxStories _ [] [] (by simpa) (fun x _ => rfl) hdist]
  simp

/-- Witness for C6: three distinct conforming reply lines with cap 2 yield
exactly the first two, in order. -/
theorem c6_witness :
    1 ≤ 2 ∧
    (parsedStories c6Reply).Pairwise (fun a b => pyLowerL a ≠ pyLowerL b) ∧
    parse_user_stories c6Reply 2 =
      ["As a user, I want a so that b.", "As a dev, I want c so that d."] :=
  ⟨by decide, by decide, (c6_cap c6Reply 2 (by decide) (by decide)).trans (by decide)⟩

/-- C7 counterexample: a specification with exactly one extracted
requirement line for which the model reply contains two distinct conforming
story lines produces two user stories — more than the number of requirement
lines fed to the synthesizer. -/
theorem c7_counterexample :
    (extract_requirement_lines nfkcAscii "3. Functional Requirements\n- Add login").length = 1 ∧
    (srs_to_user_stories nfkcAscii
      (fun _p => "1. As a user, I want login so that access is safe.\n2. As a manager, I want logs so that audits pass.")
      "3. Functional Requirements\n- Add login" 50).length = 2 :=
  ⟨by decide, by decide⟩

/-- C7 (amended): for every specification text and every model reply, the
number of stories returned by the synthesizer never exceeds the story cap
`maxStories` (for any positive cap; the default is 50); it is not bounded by
the number of extracted requirement lines. -/
theorem c7_cap_bound (nfkc : List Char → List Char) (ask : String → String)
    (srs_text : String) (maxStories : Nat) (h : 1 ≤ maxStories) :
    (srs_to_user_stories nfkc ask srs_text maxStories).length ≤ maxStories := by
  simp only [srs_to_user_stories]
  split
  · simp
  · unfold parse_user_stories
    rw [List.length_map]
    exact dedupCapAux_length_le maxStories _ [] [] (by simp only [List.length_nil]; omega)

/-- Witness for C7: the cap bound applied at the counterexample's
specification text with the default cap of 50. -/
theorem c7_witness :
    1 ≤ 50 ∧
    (srs_to_user_stories nfkcAscii (fun _p => "As a user, I want x so that y.")
      "3. Functional Requirements\n- Add login" 50).length ≤ 50 :=
  ⟨by decide, c7_cap_bound nfkcAscii _ _ 50 (by decide)⟩

/-- C9: batch submission does NOT isolate failures per item.  The
`/jira/send-selected` handler calls `create_issue` with the keyword
`classification`, which is not a parameter of `jira_client.create_issue`;
the resulting `TypeError` is uncaught, so a batch holding one well-formed
and one empty-summary story aborts with an unhandled exception instead of
producing one `created` and one `failed` entry — for every environment and
every HTTP collaborator.  Likewise `/jira/create` passes the keyword
`issuetype`, so its caught `TypeError` sends every single item to `failed`
and nothing is ever created. -/
theorem c9_batch_not_isolated :
    (∀ env post, jira_send_selected env post (some
        [StoryItem.mk (some "As a user, I want login so that access is safe.") (some "Feature"),
         StoryItem.mk (some "") none]) =
      Except.error "TypeError: create_issue() got an unexpected keyword argument classification") ∧
    (∀ env post items, jira_create env post items = JcResponse.mk []
      (items.map fun it => JcFailed.mk it.review
        "TypeError: create_issue() got an unexpected keyword argument issuetype")) := by
  constructor
  · intro env post; rfl
  · intro env post items
    unfold jira_create
    simpa using jiraCreateLoop_all_fail env post items [] []

/-- C10: both batch Jira endpoints reject a payload of more than 10 items
with the early error object — independently of the HTTP collaborator, i.e.
without any issue-tracker call — and for nonempty payloads of at most 10
items they proceed to the per-item submission loop. -/
theorem c10_batch_limit :
    (∀ env post stories, 10 < stories.length →
      jira_send_selected env post (some stories) =
        Except.ok (SsResponse.errorResp "Cannot send more than 10 stories at once") ∧
      ∀ post2, jira_send_selected env post (some stories) =
        jira_send_selected env post2 (some stories)) ∧
    (∀ env post items, 10 < items.length →
      jira_send_selected_classifications env post (some items) =
        Except.ok (ScResponse.errorResp "Cannot send more than 10 items at once") ∧
      ∀ post2, jira_send_selected_classifications env post (some items) =
        jira_send_selected_classifications env post2 (some items)) ∧
    (∀ env post stories, stories ≠ [] → stories.length ≤ 10 →
      jira_send_selected env post (some stories) = sendSelectedLoop env post stories [] []) ∧
    (∀ env post items, items ≠ [] → items.length ≤ 10 →
      jira_send_selected_classifications env post (some items) =
        sendClsLoop env post items [] []) := by
  refine ⟨fun env post stories h => ?_, fun env post items h => ?_,
    fun env post stories hne hle => ?_, fun env post items hne hle => ?_⟩
  · have h0 : stories.isEmpty = false := by
      cases stories with
      | nil => simp at h
      | cons a t => rfl
    exact ⟨by simp [jira_send_selected, h0, h], fun post2 => by simp [jira_send_selected, h0, h]⟩
  · have h0 : items.isEmpty = false := by
      cases items with
      | nil => simp at h
      | cons a t => rfl
    exact ⟨by simp [jira_send_selected_classifications, h0, h],
      fun post2 => by simp [jira_send_selected_classifications, h0, h]⟩
  · have h0 : stories.isEmpty = false := by
      cases stories with
      | nil => exact absurd rfl hne
      | cons a t => rfl
    have h10 : ¬ (10 < stories.length) := by omega
    simp [jira_send_selected, h0, h10]
  · have h0 : items.isEmpty = false := by
      cases items with
      | nil => exact absurd rfl hne
      | cons a t => rfl
    have h10 : ¬ (10 < items.length) := by omega
    simp [jira_send_selected_classifications, h0, h10]

/-- Witness for C10: an 11-item payload is rejected by both endpoints, and a
1-item payload reaches the per-item loop. -/
theorem c10_witness :
    (10 < (List.replicate 11 sampleStory).length ∧
      jira_send_selected envNone postFail (some (List.replicate 11 sampleStory)) =
        Except.ok (SsResponse.errorResp "Cannot send more than 10 stories at once")) ∧
    (10 < (List.replicate 11 sampleCls).length ∧
      jira_send_selected_classifications envNone postFail (some (List.replicate 11 sampleCls)) =
        Except.ok (ScResponse.errorResp "Cannot send more than 10 items at once")) ∧
    ([sampleStory] ≠ [] ∧ jira_send_selected envNone postFail (some [sampleStory]) =
      sendSelectedLoop envNone postFail [sampleStory] [] []) ∧
    ([sampleCls] ≠ [] ∧ jira_send_selected_classifications envNone postFail (some [sampleCls]) =
      sendClsLoop envNone postFail [sampleCls] [] []) :=
  ⟨⟨by decide, (c10_batch_limit.1 envNone postFail _ (by decide)).1⟩,
   ⟨by decide, (c10_batch_limit.2.1 envNone postFail _ (by decide)).1⟩,
   ⟨by decide, c10_batch_limit.2.2.1 envNone postFail _ (by decide) (by decide)⟩,
   ⟨by decide, c10_batch_limit.2.2.2 envNone postFail _ (by decide) (by decide)⟩⟩

end ReqTool
